import Mathlib

/-!
Verification development for the Apodeixis validator node
(`src/client/node_core.py`).  The definitions below are a shallow
embedding of the node's task-verification and commit-reveal pipeline:
the result classifier of `_run_docker`, the sentinel hashes, the
commit/reveal trace of `_process_task`, the finalize watcher
`_auto_finalize`, the gateway fallback of `_download_ipfs`, the
transaction sequencing of `_send_tx`, and the error containment of
`ValidatorNode.start`.  Keccak-256 is implemented concretely so the
sentinel constants `Web3.keccak(text=...)` are actual values.
-/

set_option maxRecDepth 4000
set_option linter.unusedVariables false

namespace Apodeixis

/-! ### Keccak-256 (the digest used by `Web3.keccak` / `Web3.solidity_keccak`) -/

/-- 64-bit left rotation; lanes are naturals below `2 ^ 64`. -/
def rotl64 (x n : Nat) : Nat := ((x <<< n) % 2 ^ 64) + (x >>> (64 - n))

/-- Bitwise complement on 64-bit lanes. -/
def not64 (x : Nat) : Nat := x ^^^ (2 ^ 64 - 1)

/-- One step of the degree-8 LFSR (`x^8 + x^6 + x^5 + x^4 + 1`) that
generates the Keccak ι bits. -/
def lfsrStep (r : Nat) : Nat :=
  let r2 := r <<< 1
  if r2 &&& 0x100 ≠ 0 then r2 ^^^ 0x171 else r2

/-- The LFSR register after `t` steps from the seed 1. -/
def lfsrIter : Nat → Nat
  | 0 => 1
  | t + 1 => lfsrStep (lfsrIter t)

/-- The `t`-th ι bit `rc(t)`. -/
def rcBitAt (t : Nat) : Nat := lfsrIter t &&& 1

/-- The round constant of round `ir`: bit `rc(j + 7 ir)` sits at position
`2 ^ j - 1` for `j = 0, ..., 6`. -/
def roundConst (ir : Nat) : Nat :=
  (List.range 7).foldl (fun acc j => acc ^^^ (rcBitAt (j + 7 * ir) <<< (2 ^ j - 1))) 0

/-- The 24 Keccak-f[1600] round constants. -/
def roundConsts : List Nat := (List.range 24).map roundConst

/-- Rotation offsets indexed by lane `x + 5 * y`, generated by the ρ walk:
starting from `(1, 0)`, step `t` assigns the triangular number
`(t+1)(t+2)/2 mod 64` and moves to `(y, (2x + 3y) mod 5)`. -/
def rotOff : List Nat :=
  (((List.range 24).foldl
    (fun acc t =>
      let l := acc.1
      let x := acc.2.1
      let y := acc.2.2
      (l.set (x + 5 * y) ((t + 1) * (t + 2) / 2 % 64), y, (2 * x + 3 * y) % 5))
    (List.replicate 25 0, 1, 0))).1

/-- Lane access in the 25-lane state. -/
def lane (s : List Nat) (i : Nat) : Nat := s.getD i 0

/-- Keccak θ step. -/
def theta (s : List Nat) : List Nat :=
  let c := (List.range 5).map fun x =>
    lane s x ^^^ lane s (x + 5) ^^^ lane s (x + 10) ^^^ lane s (x + 15) ^^^ lane s (x + 20)
  let d := (List.range 5).map fun x =>
    c.getD ((x + 4) % 5) 0 ^^^ rotl64 (c.getD ((x + 1) % 5) 0) 1
  (List.range 25).map fun i => lane s i ^^^ d.getD (i % 5) 0

/-- Keccak ρ and π steps combined. -/
def rhoPi (s : List Nat) : List Nat :=
  (List.range 25).map fun j =>
    let xp := j % 5
    let yp := j / 5
    let x := (3 * (yp + 2 * xp)) % 5
    rotl64 (lane s (x + 5 * xp)) (rotOff.getD (x + 5 * xp) 0)

/-- Keccak χ step. -/
def chi (s : List Nat) : List Nat :=
  (List.range 25).map fun j =>
    let x := j % 5
    let y := j / 5
    lane s j ^^^ (not64 (lane s ((x + 1) % 5 + 5 * y)) &&& lane s ((x + 2) % 5 + 5 * y))

/-- Keccak ι step. -/
def iota (rc : Nat) (s : List Nat) : List Nat :=
  match s with
  | [] => []
  | a :: t => (a ^^^ rc) :: t

/-- One Keccak-f round. -/
def keccakRound (s : List Nat) (rc : Nat) : List Nat := iota rc (chi (rhoPi (theta s)))

/-- The Keccak-f[1600] permutation (24 rounds). -/
def keccakF (s : List Nat) : List Nat := roundConsts.foldl keccakRound s

/-- Multi-rate padding for legacy Keccak (domain byte `0x01`), rate 136 bytes. -/
def padKeccak (msg : List Nat) : List Nat :=
  let q := 136 - msg.length % 136
  if q = 1 then msg ++ [0x81]
  else msg ++ [0x01] ++ List.replicate (q - 2) 0 ++ [0x80]

/-- Little-endian bytes to one 64-bit lane. -/
def bytesToLane (bs : List Nat) : Nat := bs.foldr (fun b acc => b + 256 * acc) 0

/-- The 17 rate lanes of one 136-byte block. -/
def blockLanes (block : List Nat) : List Nat :=
  (List.range 17).map fun i => bytesToLane ((block.drop (8 * i)).take 8)

/-- XOR one block into the state and permute. -/
def absorbBlock (s block : List Nat) : List Nat :=
  let bl := blockLanes block
  keccakF ((List.range 25).map fun i => lane s i ^^^ (if i < 17 then bl.getD i 0 else 0))

/-- Absorb `nblocks` consecutive 136-byte blocks of a padded message. -/
def absorbBlocks (s : List Nat) (padded : List Nat) : Nat → List Nat
  | 0 => s
  | n + 1 => absorbBlocks (absorbBlock s (padded.take 136)) (padded.drop 136) n

/-- One lane to 8 little-endian bytes. -/
def laneBytes (x : Nat) : List Nat := (List.range 8).map fun k => x / 256 ^ k % 256

/-- Keccak-256 of a byte sequence: 32-byte digest. -/
def keccak256 (msg : List Nat) : List Nat :=
  let p := padKeccak msg
  let s := absorbBlocks (List.replicate 25 0) p (p.length / 136)
  (List.range 4).foldr (fun i acc => laneBytes (lane s i) ++ acc) []

/-- ASCII/UTF-8 bytes of a string (all inputs in this development are ASCII). -/
def asciiBytes (s : String) : List Nat := s.data.map Char.toNat

/-- `Web3.keccak(text=s)`. -/
def keccakText (s : String) : List Nat := keccak256 (asciiBytes s)

/-! ### Result classifier (`_run_docker`, node_core.py lines 267-309) -/

/-- Substring containment on character lists, as Python's `in` on `str`. -/
def containsSub (hay need : List Char) : Bool :=
  match hay with
  | [] => need.isEmpty
  | c :: t => need.isPrefixOf (c :: t) || containsSub t need

/-- Python's `needle in haystack` for strings. -/
def strContains (hay need : String) : Bool := containsSub hay.data need.data

/-- The failure marker checked at line 288: `"Status: FAILURE" in output`. -/
def failureMarker : String := "Status: FAILURE"

/-- The first cheat marker of line 289. -/
def cheatMarker : String := "CHEAT DETECTED"

/-- The second cheat marker of line 289 (also the cheat sentinel's label). -/
def cheatLabel : String := "ERROR_AXIOM_CHECK_FAILED"

/-- The compilation-failure sentinel's label (lines 297 and 309). -/
def compilationLabel : String := "COMPILATION_FAILED"

/-- Line 292: `Web3.keccak(text="ERROR_AXIOM_CHECK_FAILED")`. -/
def cheatSentinel : List Nat := keccakText cheatLabel

/-- Lines 297/309: `Web3.keccak(text="COMPILATION_FAILED")`. -/
def compilationSentinel : List Nat := keccakText compilationLabel

/-- A character of the regex class `[a-f0-9A-Z_]` (line 300). -/
def isTokChar (c : Char) : Bool :=
  let n := c.toNat
  (97 ≤ n && n ≤ 102) || (48 ≤ n && n ≤ 57) || (65 ≤ n && n ≤ 90) || n == 95

/-- The literal part of the pattern `r"Deterministic Hash: ([a-f0-9A-Z_]+)"`. -/
def detLabel : List Char := String.data "Deterministic Hash: "

/-- Try the regex at one position: the label followed by a maximal nonempty
run of class characters (greedy `+`). -/
def matchTokenAt (l : List Char) : Option (List Char) :=
  if detLabel.isPrefixOf l then
    let tok := (l.drop detLabel.length).takeWhile isTokChar
    if tok.isEmpty then none else some tok
  else none

/-- `re.search`: the match at the leftmost position where the pattern fits. -/
def searchToken : List Char → Option (List Char)
  | [] => none
  | c :: t =>
    match matchTokenAt (c :: t) with
    | some tok => some tok
    | none => searchToken t

/-- The value `_run_docker` returns: either the string `"0x" + hash_str`
(line 305) or the bytes of a `Web3.keccak` digest (lines 292, 297, 304, 309). -/
inductive RunResult where
  | hexLit (s : String)
  | digest (h : List Nat)
deriving DecidableEq

/-- The hex-literal prefix tested at line 303. -/
def hexPrefix : String := "0x"

/-- Classification of the inspected output, lines 288-309 of `_run_docker`:
failure status first, cheat markers taking precedence, then the
`Deterministic Hash:` token on the success path, else the unparseable case. -/
def classifyOutput (output : String) : RunResult :=
  if strContains output failureMarker then
    if strContains output cheatMarker || strContains output cheatLabel then
      .digest cheatSentinel
    else
      .digest compilationSentinel
  else
    match searchToken output.data with
    | some tokL =>
      if !(hexPrefix.data.isPrefixOf tokL) && tokL.length != 64 then .digest (keccakText ⟨tokL⟩)
      else .hexLit (hexPrefix ++ ⟨tokL⟩)
    | none => .digest compilationSentinel

/-- Line 285 of `_run_docker`: `output = stdout.decode()` — the inspected
string is the decoded standard output; standard error is captured separately
(line 281) and never read. -/
def inspectedOutput (stdout stderr : String) : String := stdout

/-- Per the spec's words (§4.4): "captures combined standard output/error as
the raw result" — the combined text, for comparison with `inspectedOutput`. -/
def specCombinedOutput (stdout stderr : String) : String := stdout ++ stderr

/-- The classification `_run_docker` produces for one subprocess run with
the given captured streams. -/
def runDockerResult (stdout stderr : String) : RunResult :=
  classifyOutput (inspectedOutput stdout stderr)

/-! ### Task lifecycle trace (`_process_task`, lines 173-198)

`_process_task` draws a fresh salt, computes
`commitment = Web3.solidity_keccak(['bytes32','bytes32'], [result_hash, salt])`
(the keccak of the 64-byte concatenation), submits the commit through
`_send_tx`, sleeps 5 seconds, then submits the reveal carrying the very
same `(result_hash, salt)`.  `_send_tx` (line 317) raises unless the
receipt status is 1, and any exception is caught at line 197, so a failed
commit aborts the task before the reveal.  The trace below records those
observable events; `rh` is the bytes32 result of `_run_docker`, `salt`
the bytes of `os.urandom(32)`, and `commitStatus`/`revealStatus` the
receipt statuses the ledger returns for the two submissions. -/

/-- Observable events of one `_process_task` run. -/
inductive Event where
  | sentCommit (taskId : Nat) (commitment : List Nat)
  | settled (status : Nat)
  | slept (secs : Nat)
  | sentReveal (taskId : Nat) (rh salt : List Nat)
  | scheduledFinalize (taskId : Nat)
  | logged (lvl : String)
deriving DecidableEq

/-- Events of one `_send_tx` call: broadcast, then the observed receipt;
line 317 makes any status other than 1 an exception in the caller. -/
def sendTxEvents (sent : Event) (status : Nat) : List Event :=
  [sent, .settled status]

/-- The event trace of `_process_task taskId` after fetch and verification
produced `rh`, under receipt statuses `commitStatus` and `revealStatus`. -/
def processTask (taskId : Nat) (rh salt : List Nat) (commitStatus revealStatus : Nat)
    (greedy : Bool) : List Event :=
  let commitment := keccak256 (rh ++ salt)
  let evs := sendTxEvents (.sentCommit taskId commitment) commitStatus
  if commitStatus = 1 then
    let evs := evs ++ [.slept 5] ++ sendTxEvents (.sentReveal taskId rh salt) revealStatus
    if revealStatus = 1 then
      evs ++ (if greedy then [.scheduledFinalize taskId] else [])
    else
      evs ++ [.logged ("ERROR")]
  else
    evs ++ [.logged ("ERROR")]

/-! ### Finalize watcher (`_auto_finalize`, lines 200-230)

The watcher reads the task's deadline, then loops: sample the latest block
timestamp `now`; if `deadline + 120 - now > 0` sleep 5 seconds and sample
again, else break and submit `finalizeTask` once.  An exception whose text
contains "already finalized" is logged at INFO, any other at ERROR. -/

/-- The polling loop of lines 205-216: `ts k` is the timestamp of the
latest block at the k-th sample; the result is the index of the sample at
which the loop breaks, or `none` if `fuel` samples never reach the window. -/
def finalizeWaitIdx (deadline : Nat) (ts : Nat → Nat) : Nat → Nat → Option Nat
  | 0, _ => none
  | fuel + 1, k => if ts k < deadline + 120 then finalizeWaitIdx deadline ts fuel (k + 1) else some k

/-- Observable events of one `_auto_finalize` run. -/
inductive FinEvent where
  | sentFinalize (taskId : Nat)
  | logged (msg lvl : String)
deriving DecidableEq

/-- The marker tested at line 227. -/
def alreadyFinalizedMarker : String := "already finalized"

/-- The event trace of `_auto_finalize taskId` for a task with the given
deadline, sampling timestamps `ts`, with at most `fuel` samples;
`txResult` is the outcome of the `finalizeTask` submission (`.ok` when the
receipt settles with status 1, `.error e` when `_send_tx` raises `e`). -/
def autoFinalize (taskId deadline : Nat) (ts : Nat → Nat) (fuel : Nat)
    (txResult : Except String Unit) : List FinEvent :=
  match finalizeWaitIdx deadline ts fuel 0 with
  | none => []
  | some _ =>
    [.logged ("Time reached! Finalizing") ("WARN"), .sentFinalize taskId] ++
    match txResult with
    | .ok _ => [.logged ("SUCCESS: Finalized") ("INFO")]
    | .error e =>
      if strContains e alreadyFinalizedMarker then [.logged ("already finalized") ("INFO")]
      else [.logged ("Auto-finalize error") ("ERROR")]

/-! ### Artifact fetch (`_download_ipfs`, lines 232-265) -/

/-- The reserved simulated-pointer prefix of line 236. -/
def simPrefix : String := "QmSimulated"

/-- The deterministic placeholder artifact of lines 238-241. -/
def dummyCode : String := "import Mathlib\ntheorem test : 1 + 1 = 2 := by norm_num"

/-- One gateway attempt's observable outcome: an HTTP response with a
status and body, or a raised transport/timeout exception. -/
inductive HttpResult where
  | resp (status : Nat) (content : List Nat)
  | exc (msg : String)

/-- The ordered candidate list of lines 243-250: the configured Pinata
gateway first when present, then the three fixed public gateways. -/
def gatewayUrls (pinata : Option String) (cid : String) : List String :=
  (match pinata with
   | some g => [("https://") ++ g ++ ("/ipfs/") ++ cid]
   | none => []) ++
  [("https://cloudflare-ipfs.com/ipfs/") ++ cid,
   ("https://ipfs.io/ipfs/") ++ cid,
   ("https://gateway.pinata.cloud/ipfs/") ++ cid]

/-- The retry loop of lines 252-265: return the body of the first
candidate answering with status 200; a non-200 response or an exception
moves on to the next candidate; an empty remainder raises. -/
def downloadLoop (net : String → HttpResult) : List String → Except String (List Nat)
  | [] => .error ("All IPFS gateways failed")
  | u :: rest =>
    match net u with
    | .resp s c => if s = 200 then .ok c else downloadLoop net rest
    | .exc _ => downloadLoop net rest

/-- The body `_download_ipfs` persists for a pointer `cid`: the simulated
branch writes the fixed placeholder, otherwise the gateway loop runs. -/
def downloadIpfs (pinata : Option String) (net : String → HttpResult) (cid : String) :
    Except String (List Nat) :=
  if simPrefix.data.isPrefixOf cid.data then .ok (asciiBytes dummyCode)
  else downloadLoop net (gatewayUrls pinata cid)

/-- The content of the first candidate with transport-success status. -/
def successContent (r : HttpResult) : Option (List Nat) :=
  match r with
  | .resp s c => if s = 200 then some c else none
  | .exc _ => none

/-! ### Transaction sequencing (`_send_tx`, lines 311-318)

Each `_send_tx` call reads the account's pending transaction count (line
312), then — after further suspension points (`await` at lines 313 and
315) — signs and broadcasts a transaction carrying that nonce.  The
broadcast adds the transaction to the pool, so the pending count the
ledger reports rises by one.  No lock exists anywhere in node_core.py, so
two concurrent calls interleave freely at the `await` points.  The
machine below runs two concurrent `_send_tx` calls under an explicit
schedule: step 0 of a call is the nonce read, step 1 the broadcast. -/

/-- The local state of one in-flight `_send_tx` call. -/
structure TxCallSt where
  readNonce : Option Nat
  broadcasted : Bool
deriving DecidableEq

/-- The shared world: the ledger's pending count for the account, the two
call states, and the broadcast transactions as (call id, nonce) pairs. -/
structure SeqSt where
  pendingNonce : Nat
  callA : TxCallSt
  callB : TxCallSt
  sent : List (Bool × Nat)
deriving DecidableEq

/-- Advance one call by one atomic step: the nonce read (line 312) or the
broadcast (line 315); a finished call does nothing. -/
def stepCall (pending : Nat) (c : TxCallSt) : TxCallSt × Option Nat :=
  match c.readNonce, c.broadcasted with
  | none, b => (⟨some pending, b⟩, none)
  | some n, false => (⟨some n, true⟩, some n)
  | some n, true => (⟨some n, true⟩, none)

/-- Advance the scheduled call (`true` = A, `false` = B) by one step. -/
def stepSeq (s : SeqSt) (who : Bool) : SeqSt :=
  if who then
    match stepCall s.pendingNonce s.callA with
    | (c, some n) => ⟨s.pendingNonce + 1, c, s.callB, s.sent ++ [(true, n)]⟩
    | (c, none) => ⟨s.pendingNonce, c, s.callB, s.sent⟩
  else
    match stepCall s.pendingNonce s.callB with
    | (c, some n) => ⟨s.pendingNonce + 1, s.callA, c, s.sent ++ [(false, n)]⟩
    | (c, none) => ⟨s.pendingNonce, s.callA, c, s.sent⟩

/-- Run a schedule of interleaved steps. -/
def runSched (init : SeqSt) (sched : List Bool) : SeqSt := sched.foldl stepSeq init

/-- Two fresh concurrent `_send_tx` calls over a pending count `n0`. -/
def initSeq (n0 : Nat) : SeqSt := ⟨n0, ⟨none, false⟩, ⟨none, false⟩, []⟩

/-! ### `ValidatorNode.start` (lines 54-65) -/

/-- The outcome of `start()`: the `running` flag it leaves behind and the
(level) sequence of log emissions.  `reg` and `loopR` are the outcomes of
`_ensure_registration` and `_event_loop`; the `try/except` of lines 59-65
turns any error of either into an ERROR log and `running = False`. -/
structure StartResult where
  running : Bool
  logs : List (String × String)
deriving DecidableEq

/-- The body of `start()`: set `running`, log the mode banner, run
registration then the event loop inside `try`, catching any exception. -/
def startRun (greedy : Bool) (reg loopR : Except String Unit) : StartResult :=
  let modeStr := if greedy then ("GREEDY") else ("PASSIVE")
  let logs0 := [(("Node engine starting (") ++ modeStr ++ (")..."), ("INFO"))]
  match reg with
  | .error e => ⟨false, logs0 ++ [(("Fatal Error: ") ++ e, ("ERROR"))]⟩
  | .ok _ =>
    let logs1 := logs0 ++ [(("Entering event loop..."), ("INFO"))]
    match loopR with
    | .error e => ⟨false, logs1 ++ [(("Fatal Error: ") ++ e, ("ERROR"))]⟩
    | .ok _ => ⟨true, logs1⟩

/-! ### Theorems -/

/-- Sanity check of the digest implementation: the Keccak-256 of the empty
message is the well-known constant `c5d24601...5d85a470`. -/
theorem keccak256_empty_vector :
    keccak256 [] =
      [0xc5, 0xd2, 0x46, 0x01, 0x86, 0xf7, 0x23, 0x3c,
       0x92, 0x7e, 0x7d, 0xb2, 0xdc, 0xc7, 0x03, 0xc0,
       0xe5, 0x00, 0xb6, 0x53, 0xca, 0x82, 0x27, 0x3b,
       0x7b, 0xfa, 0xd8, 0x04, 0x5d, 0x85, 0xa4, 0x70] := by
  decide

/-- Claim C1: two concurrent `_send_tx` calls for the same account, each a
sequence of an unlocked pending-nonce read followed by a broadcast, can
interleave so that both read the same pending count and broadcast two
transactions carrying the same nonce — the claimed per-account critical
section does not exist in the code, and N concurrent submits need not get
N distinct nonces. -/
theorem sendTx_nonce_race :
    (runSched (initSeq 0) [true, false, true, false]).sent = [(true, 0), (false, 0)] ∧
    ¬ ((runSched (initSeq 0) [true, false, true, false]).sent.map Prod.snd).Nodup := by
  decide

/-- Counterexample to claim C4: the string `_run_docker` inspects is not
the combined stdout/stderr text — already on the captured pair
`("out ", "err")` the inspected string differs from the combination. -/
theorem inspectedOutput_ne_combined :
    inspectedOutput ("out ") ("err") ≠ specCombinedOutput ("out ") ("err") := by
  decide

/-- Claim C4 (amended): the raw result `_run_docker` classifies is the
subprocess's decoded standard output alone; standard error is captured
but never inspected, so the classification is independent of it. -/
theorem runDocker_classifies_stdout_only :
    ∀ stdout stderr stderr2 : String,
      runDockerResult stdout stderr = classifyOutput stdout ∧
      runDockerResult stdout stderr = runDockerResult stdout stderr2 := by
  intro s e e2
  exact ⟨rfl, rfl⟩

/-- Claim C6: when the output signals overall failure, cheat markers take
precedence — with a cheat marker present the classifier returns the cheat
sentinel, without one the compilation-failure sentinel. -/
theorem classifyOutput_cheat_precedence :
    ∀ out : String, strContains out failureMarker = true →
      ((strContains out cheatMarker || strContains out cheatLabel) = true →
        classifyOutput out = .digest cheatSentinel) ∧
      ((strContains out cheatMarker || strContains out cheatLabel) = false →
        classifyOutput out = .digest compilationSentinel) := by
  intro out hf
  constructor <;> intro hm <;> simp [classifyOutput, hf, hm]

/-- Witness for C6: the concrete failure outputs of the spec's scenario,
with and without the cheat marker. -/
theorem classifyOutput_cheat_precedence_witness :
    strContains ("Status: FAILURE -- CHEAT DETECTED") failureMarker = true ∧
    classifyOutput ("Status: FAILURE -- CHEAT DETECTED") = .digest cheatSentinel ∧
    classifyOutput ("Status: FAILURE -- ran out of memory") = .digest compilationSentinel :=
  ⟨by decide,
   (classifyOutput_cheat_precedence _ (by decide)).1 (by decide),
   (classifyOutput_cheat_precedence _ (by decide)).2 (by decide)⟩

/-- Claim C7: the sentinel hashes are fixed constants obtained by hashing
the fixed label strings, the cheat sentinel differs from the
compilation-failure sentinel, and an unparseable success output (no
failure marker, no token) maps to the very same sentinel value as a
compilation failure. -/
theorem sentinel_constants :
    cheatSentinel = keccakText cheatLabel ∧
    compilationSentinel = keccakText compilationLabel ∧
    cheatSentinel ≠ compilationSentinel ∧
    (∀ out : String, strContains out failureMarker = false → searchToken out.data = none →
      classifyOutput out = .digest compilationSentinel) := by
  refine ⟨rfl, rfl, by decide, ?_⟩
  intro out hf hs
  simp [classifyOutput, hf, hs]

/-- Witness for C7: a concrete success-signalling output with no parsable
token classifies to the compilation-failure sentinel. -/
theorem sentinel_constants_witness :
    strContains ("no labeled line here") failureMarker = false ∧
    classifyOutput ("no labeled line here") = .digest compilationSentinel :=
  ⟨by decide, sentinel_constants.2.2.2 _ (by decide) (by decide)⟩

/-- Claim C8: on the success path the extracted token is hashed to a fixed
digest unless it is a full-length (64-character) hash literal, which is
used verbatim behind the ledger's hex prefix. -/
theorem classifyOutput_success_token :
    ∀ (out : String) (tokL : List Char),
      strContains out failureMarker = false →
      searchToken out.data = some tokL →
      ((!(hexPrefix.data.isPrefixOf tokL) && tokL.length != 64) = true →
        classifyOutput out = .digest (keccakText ⟨tokL⟩)) ∧
      ((!(hexPrefix.data.isPrefixOf tokL) && tokL.length != 64) = false →
        classifyOutput out = .hexLit (hexPrefix ++ ⟨tokL⟩)) := by
  intro out tokL hf hs
  constructor <;> intro hc <;> simp [classifyOutput, hf, hs, hc]

/-- Witness for C8: the spec's scenario — the output
`"Deterministic Hash: abc123"` classifies to the digest of the token text
`"abc123"`, not to the literal. -/
theorem classifyOutput_success_token_witness :
    searchToken (String.data ("Deterministic Hash: abc123")) = some (String.data ("abc123")) ∧
    classifyOutput ("Deterministic Hash: abc123") = .digest (keccakText ("abc123")) :=
  ⟨by decide,
   (classifyOutput_success_token _ _ (by decide) (by decide)).1 (by decide)⟩

/-- Claim C2: whenever one `_process_task` run both commits and reveals,
the committed value is exactly the keccak of the concatenation of the
revealed result hash and salt — recomputing the digest from the revealed
pair reproduces the commitment. -/
theorem processTask_commit_reveal_roundtrip :
    ∀ (t : Nat) (rh salt : List Nat) (cs rs : Nat) (g : Bool)
      (t1 t2 : Nat) (c r2 s2 : List Nat),
      Event.sentCommit t1 c ∈ processTask t rh salt cs rs g →
      Event.sentReveal t2 r2 s2 ∈ processTask t rh salt cs rs g →
      c = keccak256 (r2 ++ s2) := by
  intro t rh salt cs rs g t1 t2 c r2 s2 hc hr
  by_cases hcs : cs = 1
  · by_cases hrs : rs = 1 <;> cases g <;>
      simp [processTask, sendTxEvents, hcs, hrs] at hc hr <;>
      obtain ⟨-, rfl⟩ := hc <;> obtain ⟨-, rfl, rfl⟩ := hr <;> rfl
  · simp [processTask, sendTxEvents, hcs] at hr

/-- Witness for C2: a concrete run with both receipts settling at status 1
contains the commit and the reveal, and the commitment is the digest of
the revealed pair. -/
theorem processTask_commit_reveal_roundtrip_witness :
    Event.sentCommit 1 (keccak256 ([] ++ [])) ∈ processTask 1 [] [] 1 1 false ∧
    Event.sentReveal 1 [] [] ∈ processTask 1 [] [] 1 1 false ∧
    keccak256 ([] ++ []) = keccak256 ([] ++ []) :=
  ⟨by simp [processTask, sendTxEvents],
   by simp [processTask, sendTxEvents],
   processTask_commit_reveal_roundtrip 1 [] [] 1 1 false 1 1 _ [] []
     (by simp [processTask, sendTxEvents]) (by simp [processTask, sendTxEvents])⟩

/-- Claim C3: a reveal is submitted only after the commit of the same task
settled with success status and after the fixed 5-second cool-down — when
the commit receipt is not success no reveal ever appears, and when it is,
the trace starts with commit, its success settlement, the 5-unit sleep,
and only then the reveal. -/
theorem processTask_reveal_after_commit :
    ∀ (t : Nat) (rh salt : List Nat) (cs rs : Nat) (g : Bool),
      (cs ≠ 1 → ∀ (t2 : Nat) (r2 s2 : List Nat),
        Event.sentReveal t2 r2 s2 ∉ processTask t rh salt cs rs g) ∧
      (cs = 1 →
        (processTask t rh salt cs rs g).take 4 =
          [.sentCommit t (keccak256 (rh ++ salt)), .settled 1, .slept 5,
           .sentReveal t rh salt]) := by
  intro t rh salt cs rs g
  constructor
  · intro hcs t2 r2 s2 hmem
    simp [processTask, sendTxEvents, hcs] at hmem
  · intro hcs
    by_cases hrs : rs = 1 <;> cases g <;> simp [processTask, sendTxEvents, hcs, hrs]

/-- Witness for C3: with a failed commit receipt (status 0) the concrete
trace holds no reveal; with a settled commit the trace opens with commit,
success settlement, the 5-second sleep, then the reveal. -/
theorem processTask_reveal_after_commit_witness :
    (Event.sentReveal 1 [] [] ∉ processTask 1 [] [] 0 1 false) ∧
    (processTask 1 [] [] 1 1 false).take 4 =
      [.sentCommit 1 (keccak256 ([] ++ [])), .settled 1, .slept 5, .sentReveal 1 [] []] :=
  ⟨(processTask_reveal_after_commit 1 [] [] 0 1 false).1 (by decide) 1 [] [],
   (processTask_reveal_after_commit 1 [] [] 1 1 false).2 rfl⟩

/-- The polling loop of `_auto_finalize` only breaks at a sample whose
block timestamp has reached the finalize window. -/
theorem finalizeWaitIdx_ge (deadline : Nat) (ts : Nat → Nat) :
    ∀ (fuel k0 k : Nat), finalizeWaitIdx deadline ts fuel k0 = some k →
      deadline + 120 ≤ ts k := by
  intro fuel
  induction fuel with
  | zero => intro k0 k h; simp [finalizeWaitIdx] at h
  | succ n ih =>
    intro k0 k h
    by_cases hlt : ts k0 < deadline + 120
    · simp only [finalizeWaitIdx, hlt, if_pos] at h
      exact ih _ _ h
    · simp only [finalizeWaitIdx, hlt, if_neg, not_false_iff, Option.some.injEq] at h
      subst h
      omega

/-- Claim C5: the finalize watcher submits only once the sampled chain
time has reached `deadline + 120`; on the successful path it submits
exactly one finalize transaction; an "already finalized" rejection is
logged at INFO severity, not as an error. -/
theorem autoFinalize_window :
    ∀ (t deadline : Nat) (ts : Nat → Nat) (fuel : Nat) (txr : Except String Unit) (k : Nat),
      (FinEvent.sentFinalize t ∈ autoFinalize t deadline ts fuel txr →
        match finalizeWaitIdx deadline ts fuel 0 with
        | some j => deadline + 120 ≤ ts j
        | none => False) ∧
      (finalizeWaitIdx deadline ts fuel 0 = some k → txr = Except.ok () →
        autoFinalize t deadline ts fuel txr =
          [.logged ("Time reached! Finalizing") ("WARN"), .sentFinalize t,
           .logged ("SUCCESS: Finalized") ("INFO")]) ∧
      (∀ e, finalizeWaitIdx deadline ts fuel 0 = some k → txr = Except.error e →
        strContains e alreadyFinalizedMarker = true →
        autoFinalize t deadline ts fuel txr =
          [.logged ("Time reached! Finalizing") ("WARN"), .sentFinalize t,
           .logged ("already finalized") ("INFO")]) := by
  intro t deadline ts fuel txr k
  refine ⟨?_, ?_, ?_⟩
  · intro hmem
    cases hW : finalizeWaitIdx deadline ts fuel 0 with
    | none => simp [autoFinalize, hW] at hmem
    | some j => exact finalizeWaitIdx_ge deadline ts fuel 0 j hW
  · intro hW htx
    subst htx
    simp [autoFinalize, hW]
  · intro e hW htx hmark
    subst htx
    simp [autoFinalize, hW, hmark]

/-- Witness for C5: a task with deadline 0 observed at chain time 200 is
past the window at the first sample; a settled submission gives the
single-finalize trace, and an "already finalized" rejection gives the
INFO-terminated trace. -/
theorem autoFinalize_window_witness :
    (0 : Nat) + 120 ≤ 200 ∧
    autoFinalize 7 0 (fun _ => 200) 1 (Except.ok ()) =
      [.logged ("Time reached! Finalizing") ("WARN"), .sentFinalize 7,
       .logged ("SUCCESS: Finalized") ("INFO")] ∧
    autoFinalize 7 0 (fun _ => 200) 1 (Except.error ("revert: already finalized")) =
      [.logged ("Time reached! Finalizing") ("WARN"), .sentFinalize 7,
       .logged ("already finalized") ("INFO")] :=
  ⟨(autoFinalize_window 7 0 (fun _ => 200) 1 (Except.ok ()) 0).1 (by decide),
   (autoFinalize_window 7 0 (fun _ => 200) 1 (Except.ok ()) 0).2.1 (by decide) rfl,
   (autoFinalize_window 7 0 (fun _ => 200) 1 (Except.error ("revert: already finalized")) 0).2.2
     _ (by decide) rfl (by decide)⟩

/-- The gateway loop returns the first transport-success body. -/
theorem downloadLoop_eq_findSome (net : String → HttpResult) :
    ∀ l : List String,
      downloadLoop net l =
        match l.findSome? (fun u => successContent (net u)) with
        | some c => .ok c
        | none => .error ("All IPFS gateways failed") := by
  intro l
  induction l with
  | nil => rfl
  | cons u rest ih =>
    cases hnet : net u with
    | resp s c =>
      by_cases hs : s = 200 <;>
        simp [downloadLoop, List.findSome?_cons, successContent, hnet, hs, ih]
    | exc m =>
      simp [downloadLoop, List.findSome?_cons, successContent, hnet, ih]

/-- Claim C9: for a non-simulated pointer the fetcher walks the candidate
list — the configured preferred gateway first when present, then the
fixed public gateways — returns the body of the first candidate with
transport-success status (any other response or exception is swallowed),
and raises the exhaustion error exactly when no candidate succeeds. -/
theorem downloadIpfs_first_success :
    ∀ (pinata : Option String) (net : String → HttpResult) (cid g : String),
      gatewayUrls (some g) cid =
        (("https://") ++ g ++ ("/ipfs/") ++ cid) :: gatewayUrls none cid ∧
      (simPrefix.data.isPrefixOf cid.data = false →
        downloadIpfs pinata net cid =
          match (gatewayUrls pinata cid).findSome? (fun u => successContent (net u)) with
          | some c => .ok c
          | none => .error ("All IPFS gateways failed")) ∧
      (simPrefix.data.isPrefixOf cid.data = false →
        (downloadIpfs pinata net cid = .error ("All IPFS gateways failed") ↔
          ∀ u ∈ gatewayUrls pinata cid, successContent (net u) = none)) := by
  intro pinata net cid g
  refine ⟨rfl, ?_, ?_⟩
  · intro hsim
    simp only [downloadIpfs, hsim, Bool.false_eq_true, if_false]
    exact downloadLoop_eq_findSome net _
  · intro hsim
    simp only [downloadIpfs, hsim, Bool.false_eq_true, if_false]
    rw [downloadLoop_eq_findSome net]
    cases hfs : (gatewayUrls pinata cid).findSome? (fun u => successContent (net u)) with
    | some c =>
      refine iff_of_false (by simp) (fun hall => ?_)
      rw [List.findSome?_eq_none_iff.mpr hall] at hfs
      exact Option.noConfusion hfs
    | none =>
      exact iff_of_true rfl (List.findSome?_eq_none_iff.mp hfs)

/-- A concrete network oracle for the C9 witness: the preferred gateway
times out, the first public fallback answers 500, the second answers 200. -/
def netW : String → HttpResult := fun u =>
  if u = ("https://ipfs.io/ipfs/bafyTest") then .resp 200 [7]
  else if u = ("https://cloudflare-ipfs.com/ipfs/bafyTest") then .resp 500 []
  else .exc ("timeout")

/-- Witness for C9: on the concrete oracle the fetch skips the failing
candidates and returns the body of the first status-200 gateway. -/
theorem downloadIpfs_first_success_witness :
    simPrefix.data.isPrefixOf (String.data ("bafyTest")) = false ∧
    downloadIpfs (some ("gw.example")) netW ("bafyTest") = .ok [7] := by
  refine ⟨by decide, ?_⟩
  rw [(downloadIpfs_first_success (some ("gw.example")) netW ("bafyTest") ("gw.example")).2.1
    (by decide)]
  rfl

/-- Claim C10: `start()` swallows every error of registration and of the
event loop — the caller always receives a plain result, the error is
logged at ERROR severity, and the running flag is left `false`; the flag
can only remain `true` when neither phase erred. -/
theorem startRun_contains_errors :
    ∀ (g : Bool) (reg loopR : Except String Unit) (e : String),
      (reg = .error e →
        (startRun g reg loopR).running = false ∧
        ((("Fatal Error: ") ++ e, ("ERROR")) ∈ (startRun g reg loopR).logs)) ∧
      (reg = .ok () → loopR = .error e →
        (startRun g reg loopR).running = false ∧
        ((("Fatal Error: ") ++ e, ("ERROR")) ∈ (startRun g reg loopR).logs)) ∧
      ((startRun g reg loopR).running = true → reg = .ok () ∧ loopR = .ok ()) := by
  intro g reg loopR e
  refine ⟨?_, ?_, ?_⟩
  · intro h
    subst h
    simp [startRun]
  · intro h1 h2
    subst h1
    subst h2
    simp [startRun]
  · intro h
    cases reg with
    | error e1 => simp [startRun] at h
    | ok u =>
      cases loopR with
      | error e2 => simp [startRun] at h
      | ok v => exact ⟨rfl, rfl⟩

/-- Witness for C10: a concrete registration failure is contained — the
run ends with the flag down and the fatal ERROR log emitted. -/
theorem startRun_contains_errors_witness :
    (startRun false (Except.error ("boom")) (Except.ok ())).running = false ∧
    ((("Fatal Error: ") ++ ("boom"), ("ERROR")) ∈
      (startRun false (Except.error ("boom")) (Except.ok ())).logs) :=
  (startRun_contains_errors false (Except.error ("boom")) (Except.ok ()) ("boom")).1 rfl

end Apodeixis
